import Mathlib

/-!
Shallow embedding of the per-user state-tracking engine of the message
responder: the anti-spam rate limiter (`AIControlService`), the bounded
conversation history (`ConversationHistoryService`), and the durable
AI-enabled flag (`PersistentStateService`).

All three services key their state by user id in a `Map`; every operation
reads and writes only the entry of the one user it is given, so each
service is embedded as a transition function on that user's entry
(`Option Tracker`, `Option Conversation`), with `none` standing for
"the map has no entry for this user".  Timestamps are `Int`
(JavaScript epoch milliseconds); message counts are `Nat`.
-/

namespace AIControl

/-- Per-user spam tracker, mirroring the `MessageTracker` interface. -/
structure MessageTracker where
  count : Nat
  firstMessageTime : Int
  lastMessageTime : Int
  blockedUntil : Option Int
deriving DecidableEq

/-- Result record of `checkAndTrackMessage`. -/
structure CheckResult where
  isSpam : Bool
  shouldWait : Bool
  waitTime : Int
deriving DecidableEq

def SPAM_THRESHOLD : Nat := 5

def SPAM_TIME_WINDOW : Int := 60000

def SPAM_BLOCK_DURATION : Int := 3600000

def MESSAGE_COOLDOWN : Int := 3000

/-- Embeds `isUserBlocked`: returns whether the user is blocked and the
tracker state after the call (an expired block is lazily cleared and the
count reset to 0, mutating the stored tracker in place). -/
def isUserBlocked (now : Int) (t : Option MessageTracker) :
    Bool × Option MessageTracker :=
  match t with
  | none => (false, none)
  | some tr =>
    match tr.blockedUntil with
    | none => (false, some tr)
    | some b =>
      if now < b then (true, some tr)
      else (false, some { tr with blockedUntil := none, count := 0 })

/-- Embeds `checkAndTrackMessage`.  The source fetches the tracker, calls
`isUserBlocked` (which may mutate the shared tracker object), then branches
on the possibly-updated tracker; here that aliasing is rendered by threading
the state returned by `isUserBlocked`. -/
def checkAndTrackMessage (now : Int) (t : Option MessageTracker) :
    CheckResult × Option MessageTracker :=
  let p := isUserBlocked now t
  if p.1 then
    ({ isSpam := true, shouldWait := false, waitTime := 0 }, p.2)
  else
    match p.2 with
    | none =>
      ({ isSpam := false, shouldWait := false, waitTime := 0 },
       some { count := 1, firstMessageTime := now, lastMessageTime := now,
              blockedUntil := none })
    | some tr =>
      let timeSinceLastMessage := now - tr.lastMessageTime
      if timeSinceLastMessage < MESSAGE_COOLDOWN then
        ({ isSpam := false, shouldWait := true,
           waitTime := MESSAGE_COOLDOWN - timeSinceLastMessage }, some tr)
      else if now - tr.firstMessageTime > SPAM_TIME_WINDOW then
        ({ isSpam := false, shouldWait := false, waitTime := 0 },
         some { tr with count := 1, firstMessageTime := now, lastMessageTime := now })
      else
        let tr2 := { tr with count := tr.count + 1, lastMessageTime := now }
        if tr2.count > SPAM_THRESHOLD then
          ({ isSpam := true, shouldWait := false, waitTime := 0 },
           some { tr2 with blockedUntil := some (now + SPAM_BLOCK_DURATION) })
        else
          ({ isSpam := false, shouldWait := false, waitTime := 0 }, some tr2)

/-- Ceiling division as computed by `Math.ceil(a / b)` on integers with
`b > 0`. -/
def jsCeilDiv (a b : Int) : Int := -((-a) / b)

/-- Embeds `getBlockTimeRemaining`: remaining block time in minutes,
`Math.ceil((blockedUntil - now) / 60000)` when a `blockedUntil` stamp is
present, 0 otherwise.  The stored tracker is not touched. -/
def getBlockTimeRemaining (now : Int) (t : Option MessageTracker) : Int :=
  match t with
  | none => 0
  | some tr =>
    match tr.blockedUntil with
    | none => 0
    | some b => jsCeilDiv (b - now) 60000

/-- Embeds `unblockUser`: clears an existing block and resets the count,
returning whether a block stamp was present. -/
def unblockUser (t : Option MessageTracker) : Bool × Option MessageTracker :=
  match t with
  | none => (false, none)
  | some tr =>
    match tr.blockedUntil with
    | none => (false, some tr)
    | some _ => (true, some { tr with blockedUntil := none, count := 0 })

/-- Embeds `cleanup` restricted to one user's entry: the tracker is deleted
when inactive for more than 24 hours and not currently blocked. -/
def cleanup (now : Int) (t : Option MessageTracker) : Option MessageTracker :=
  match t with
  | none => none
  | some tr =>
    let inactiveDuration := now - tr.lastMessageTime
    let notBlockedNow : Bool :=
      match tr.blockedUntil with
      | none => true
      | some b => decide (now > b)
    if inactiveDuration > 86400000 ∧ notBlockedNow = true then none else some tr

end AIControl

namespace ConversationHistory

/-- A single history entry, mirroring the `Message` interface. -/
structure Message where
  role : String
  content : String
  timestamp : Int
deriving DecidableEq

/-- Per-user conversation record, mirroring the `Conversation` interface. -/
structure Conversation where
  userId : String
  messages : List Message
  lastUpdated : Int
deriving DecidableEq

def MAX_MESSAGES_PER_USER : Nat := 10

def CONVERSATION_TIMEOUT : Int := 1800000

/-- Embeds `addUserMessage`: creates the record if absent, appends a
`user` message, trims with `slice(-MAX_MESSAGES_PER_USER * 2)` when the
length exceeds `MAX_MESSAGES_PER_USER * 2`, and stamps `lastUpdated`.
The resulting record is always stored, so the result is a `Conversation`. -/
def addUserMessage (now : Int) (userId content : String)
    (c : Option Conversation) : Conversation :=
  let conversation : Conversation :=
    match c with
    | none => { userId := userId, messages := [], lastUpdated := now }
    | some cv => cv
  let messages :=
    conversation.messages ++ [{ role := "user", content := content, timestamp := now }]
  let messages :=
    if messages.length > MAX_MESSAGES_PER_USER * 2 then
      messages.drop (messages.length - MAX_MESSAGES_PER_USER * 2)
    else
      messages
  { conversation with messages := messages, lastUpdated := now }

/-- Embeds `addAssistantMessage`: appends an `assistant` message to an
existing record and stamps `lastUpdated`; when no record exists it logs an
error and returns without touching the store. -/
def addAssistantMessage (now : Int) (content : String)
    (c : Option Conversation) : Option Conversation :=
  match c with
  | none => none
  | some conversation =>
    some { conversation with
             messages := conversation.messages ++
               [{ role := "assistant", content := content, timestamp := now }],
             lastUpdated := now }

/-- Embeds `getHistory`: returns the messages stripped to role and content,
deleting the record and returning the empty list when it has expired.  The
pair carries the returned history and the user's store entry afterwards. -/
def getHistory (now : Int) (c : Option Conversation) :
    List (String × String) × Option Conversation :=
  match c with
  | none => ([], none)
  | some conversation =>
    if now - conversation.lastUpdated > CONVERSATION_TIMEOUT then
      ([], none)
    else
      (conversation.messages.map (fun msg => (msg.role, msg.content)), some conversation)

end ConversationHistory

namespace PersistentState

/-- Persisted application state, mirroring the `AppState` interface. -/
structure AppState where
  aiEnabled : Bool
  lastUpdated : Int
  updatedBy : Option String
deriving DecidableEq

/-- The backing JSON file: absent, present but unparseable, or present and
parsing to an `AppState` (`JSON.stringify`/`JSON.parse` round-trip the flat
record exactly). -/
inductive FileState where
  | absent
  | malformed
  | content (s : AppState)
deriving DecidableEq

/-- The `DEFAULT_STATE` field: AI enabled, stamped with the construction
time, no `updatedBy`. -/
def DEFAULT_STATE (constructedAt : Int) : AppState :=
  { aiEnabled := true, lastUpdated := constructedAt, updatedBy := none }

/-- Embeds `saveState`: serialises the state and writes it to the backing
file. -/
def saveState (s : AppState) (_fs : FileState) : FileState :=
  FileState.content s

/-- Embeds `loadState`: parses the backing file when it exists; when the
file is missing, writes and returns the default; when reading or parsing
throws, the catch block returns the default without writing. -/
def loadState (defaultState : AppState) (fs : FileState) : AppState × FileState :=
  match fs with
  | FileState.content s => (s, fs)
  | FileState.absent => (defaultState, saveState defaultState fs)
  | FileState.malformed => (defaultState, fs)

/-- Embeds `setAIStatus`: replaces the in-memory state with the new flag
value, a fresh `lastUpdated` stamp and the given `updatedBy`, then persists
it. -/
def setAIStatus (now : Int) (enabled : Bool) (updatedBy : Option String)
    (fs : FileState) : AppState × FileState :=
  let state : AppState :=
    { aiEnabled := enabled, lastUpdated := now, updatedBy := updatedBy }
  (state, saveState state fs)

end PersistentState

namespace AIControl

/-- Runs `checkAndTrackMessage` once per timestamp in the list, collecting
the results and threading the tracker state. -/
def runSequence (times : List Int) (t : Option MessageTracker) :
    List CheckResult × Option MessageTracker :=
  match times with
  | [] => ([], t)
  | now :: rest =>
    let p := checkAndTrackMessage now t
    let q := runSequence rest p.2
    (p.1 :: q.1, q.2)

end AIControl

namespace ConversationHistory

/-- The list obtained by appending the new user message to the stored
messages, before the trimming step of `addUserMessage`. -/
def pushedMessages (now : Int) (content : String) (c : Option Conversation) :
    List Message :=
  (c.elim [] fun cv => cv.messages) ++
    [{ role := "user", content := content, timestamp := now }]

/-- Applies `addAssistantMessage` the given number of times. -/
def pushAssist : Nat → Option Conversation → Option Conversation
  | 0, c => c
  | n + 1, c => pushAssist n (addAssistantMessage 0 "a" c)

end ConversationHistory

/-- C2: with threshold 5, window 60000 ms, cooldown 3000 ms and block
duration 3600000 ms, a fresh user sending 6 messages 4 seconds apart gets
not-spam on calls 1 through 5 and spam on call 6, which stamps
`blockedUntil = now + 3600000`; an immediate 7th call returns
`{isSpam := true, shouldWait := false, waitTime := 0}` without mutating
the tracker, the blocked check taking precedence over the cooldown check. -/
theorem AIControl.spam_scenario_six_messages :
    AIControl.runSequence [0, 4000, 8000, 12000, 16000, 20000] none =
      ([⟨false, false, 0⟩, ⟨false, false, 0⟩, ⟨false, false, 0⟩,
        ⟨false, false, 0⟩, ⟨false, false, 0⟩, ⟨true, false, 0⟩],
       some ⟨6, 0, 20000, some 3620000⟩) ∧
    AIControl.checkAndTrackMessage 20001 (some ⟨6, 0, 20000, some 3620000⟩) =
      (⟨true, false, 0⟩, some ⟨6, 0, 20000, some 3620000⟩) := by
  decide

/-- C6: setting the AI flag to false with updater "admin1" and then loading
the state afresh from the file just written yields `aiEnabled = false` and
`updatedBy = "admin1"`. -/
theorem PersistentState.set_then_load_roundtrip (now constructedAt : Int)
    (fs : PersistentState.FileState) :
    (PersistentState.loadState (PersistentState.DEFAULT_STATE constructedAt)
        (PersistentState.setAIStatus now false (some "admin1") fs).2).1.aiEnabled
      = false ∧
    (PersistentState.loadState (PersistentState.DEFAULT_STATE constructedAt)
        (PersistentState.setAIStatus now false (some "admin1") fs).2).1.updatedBy
      = some "admin1" :=
  ⟨rfl, rfl⟩

/-- C7 counterexample: on a malformed backing file `loadState` returns the
default but leaves the file untouched — it does not write the default back
to disk, so the claim's write-back clause fails in the malformed case. -/
theorem PersistentState.malformed_not_written :
    (PersistentState.loadState (PersistentState.DEFAULT_STATE 0)
        PersistentState.FileState.malformed).1 = PersistentState.DEFAULT_STATE 0 ∧
    (PersistentState.loadState (PersistentState.DEFAULT_STATE 0)
        PersistentState.FileState.malformed).2 = PersistentState.FileState.malformed ∧
    PersistentState.FileState.malformed ≠
      PersistentState.saveState (PersistentState.DEFAULT_STATE 0)
        PersistentState.FileState.malformed := by
  decide

/-- C7 amended: on an absent or malformed backing file `loadState` fails
open, returning the built-in default with `aiEnabled = true`; the default
is written back to disk only when the file is absent, while a malformed
file is left in place. -/
theorem PersistentState.loadState_fails_open (constructedAt : Int) :
    (PersistentState.loadState (PersistentState.DEFAULT_STATE constructedAt)
        PersistentState.FileState.absent).1.aiEnabled = true ∧
    (PersistentState.loadState (PersistentState.DEFAULT_STATE constructedAt)
        PersistentState.FileState.absent).2 =
      PersistentState.FileState.content (PersistentState.DEFAULT_STATE constructedAt) ∧
    (PersistentState.loadState (PersistentState.DEFAULT_STATE constructedAt)
        PersistentState.FileState.malformed).1.aiEnabled = true ∧
    (PersistentState.loadState (PersistentState.DEFAULT_STATE constructedAt)
        PersistentState.FileState.malformed).2 =
      PersistentState.FileState.malformed :=
  ⟨rfl, rfl, rfl, rfl⟩

/-- C9: `addAssistantMessage` for a user with no conversation record is a
no-op on the store — it creates no record and raises no error. -/
theorem ConversationHistory.addAssistantMessage_no_record (now : Int)
    (content : String) :
    ConversationHistory.addAssistantMessage now content none = none :=
  rfl

/-- C1 counterexample: one `addUserMessage` followed by twenty
`addAssistantMessage` calls leaves 21 stored messages, exceeding the
`2 * MAX_MESSAGES_PER_USER = 20` bound — only the user-message path trims. -/
theorem ConversationHistory.assistant_append_exceeds_bound :
    ((ConversationHistory.pushAssist 20
        (some (ConversationHistory.addUserMessage 0 "u" "m" none))).map
      fun cv => cv.messages.length).getD 0 = 21 ∧
    ConversationHistory.MAX_MESSAGES_PER_USER * 2 < 21 := by
  decide

/-- C1 amended: after every `addUserMessage` call the stored list holds at
most `2 * MAX_MESSAGES_PER_USER = 20` messages, and when the appended list
exceeds the bound the surviving messages are its final 20 entries (oldest
dropped first); `addAssistantMessage` appends without trimming, so the
bound is not maintained across assistant appends. -/
theorem ConversationHistory.addUserMessage_bounds (now : Int)
    (userId content : String) (c : Option ConversationHistory.Conversation) :
    (ConversationHistory.addUserMessage now userId content c).messages.length ≤
      ConversationHistory.MAX_MESSAGES_PER_USER * 2 ∧
    (ConversationHistory.addUserMessage now userId content c).messages =
      (if (ConversationHistory.pushedMessages now content c).length >
          ConversationHistory.MAX_MESSAGES_PER_USER * 2 then
        (ConversationHistory.pushedMessages now content c).drop
          ((ConversationHistory.pushedMessages now content c).length -
            ConversationHistory.MAX_MESSAGES_PER_USER * 2)
      else ConversationHistory.pushedMessages now content c) := by
  have h2 : (ConversationHistory.addUserMessage now userId content c).messages =
      (if (ConversationHistory.pushedMessages now content c).length >
          ConversationHistory.MAX_MESSAGES_PER_USER * 2 then
        (ConversationHistory.pushedMessages now content c).drop
          ((ConversationHistory.pushedMessages now content c).length -
            ConversationHistory.MAX_MESSAGES_PER_USER * 2)
      else ConversationHistory.pushedMessages now content c) := by
    cases c <;>
      simp [ConversationHistory.addUserMessage, ConversationHistory.pushedMessages]
  refine ⟨?_, h2⟩
  rw [h2]
  split
  · rw [List.length_drop]
    omega
  · omega

/-- C5: `getHistory` returns the empty history and deletes the record when
`now - lastUpdated` exceeds `CONVERSATION_TIMEOUT`, also when the record was
never explicitly cleared; otherwise it returns the stored messages in
insertion order with timestamps stripped, leaving the record in place. -/
theorem ConversationHistory.getHistory_strips_and_expires (now : Int)
    (conversation : ConversationHistory.Conversation) :
    ConversationHistory.getHistory now none = ([], none) ∧
    (now - conversation.lastUpdated > ConversationHistory.CONVERSATION_TIMEOUT →
      ConversationHistory.getHistory now (some conversation) = ([], none)) ∧
    (now - conversation.lastUpdated ≤ ConversationHistory.CONVERSATION_TIMEOUT →
      ConversationHistory.getHistory now (some conversation) =
        (conversation.messages.map fun msg => (msg.role, msg.content),
         some conversation)) := by
  refine ⟨rfl, fun h => ?_, fun h => ?_⟩
  · simp only [ConversationHistory.getHistory]
    rw [if_pos h]
  · simp only [ConversationHistory.getHistory]
    rw [if_neg (not_lt.mpr h)]

theorem ConversationHistory.getHistory_strips_and_expires_witness :
    ConversationHistory.getHistory 1800001
        (some ⟨"u", [⟨"user", "hi", 0⟩], 0⟩) = ([], none) ∧
    ConversationHistory.getHistory 5
        (some ⟨"u", [⟨"user", "hi", 0⟩], 0⟩) =
      ([("user", "hi")], some ⟨"u", [⟨"user", "hi", 0⟩], 0⟩) :=
  ⟨(ConversationHistory.getHistory_strips_and_expires 1800001 _).2.1 (by decide),
   (ConversationHistory.getHistory_strips_and_expires 5 _).2.2 (by decide)⟩

namespace AIControl

/-- C3: for an existing non-blocked tracker (blocked stamps only ever arise
as `lastMessageTime + SPAM_BLOCK_DURATION`), a call arriving within the
cooldown returns `{isSpam := false, shouldWait := true,
waitTime := cooldown - gap}` and leaves the tracker completely unchanged —
a sub-cooldown message never advances the spam counter. -/
theorem cooldown_returns_wait_unchanged (tr : MessageTracker) (now : Int)
    (hshape : ∀ b, tr.blockedUntil = some b →
      b = tr.lastMessageTime + SPAM_BLOCK_DURATION)
    (hnb : (isUserBlocked now (some tr)).1 = false)
    (hgap : now - tr.lastMessageTime < MESSAGE_COOLDOWN) :
    checkAndTrackMessage now (some tr) =
      ({ isSpam := false, shouldWait := true,
         waitTime := MESSAGE_COOLDOWN - (now - tr.lastMessageTime) }, some tr) := by
  have hbn : tr.blockedUntil = none := by
    cases htr : tr.blockedUntil with
    | none => rfl
    | some b =>
      exfalso
      have hb := hshape b htr
      by_cases hlt : now < b
      · simp [isUserBlocked, htr, hlt] at hnb
      · have hb2 : b = tr.lastMessageTime + 3600000 := hb
        have hg2 : now - tr.lastMessageTime < 3000 := hgap
        omega
  simp [checkAndTrackMessage, isUserBlocked, hbn, hgap]

theorem cooldown_returns_wait_unchanged_witness :
    checkAndTrackMessage 1000 (some ⟨1, 0, 0, none⟩) =
      ({ isSpam := false, shouldWait := true, waitTime := 2000 },
       some ⟨1, 0, 0, none⟩) :=
  cooldown_returns_wait_unchanged ⟨1, 0, 0, none⟩ 1000 (by simp) (by decide)
    (by decide)

/-- C4: when a tracker's block stamp (always `lastMessageTime +
SPAM_BLOCK_DURATION`) has elapsed, the next `checkAndTrackMessage` call
returns not-spam and leaves the tracker with `count = 1`, a fresh window
starting at `now`, and no block stamp. -/
theorem expired_block_fresh_window (tr : MessageTracker) (b now : Int)
    (hb : tr.blockedUntil = some b)
    (hshape : b = tr.lastMessageTime + SPAM_BLOCK_DURATION)
    (hfl : tr.firstMessageTime ≤ tr.lastMessageTime)
    (helapsed : b ≤ now) :
    checkAndTrackMessage now (some tr) =
      ({ isSpam := false, shouldWait := false, waitTime := 0 },
       some { count := 1, firstMessageTime := now, lastMessageTime := now,
              blockedUntil := none }) := by
  have hnlt : ¬ now < b := not_lt.mpr helapsed
  have hdur : b = tr.lastMessageTime + 3600000 := hshape
  have hcd : ¬ now - tr.lastMessageTime < MESSAGE_COOLDOWN := by
    show ¬ now - tr.lastMessageTime < 3000
    omega
  have hwin : now - tr.firstMessageTime > SPAM_TIME_WINDOW := by
    show now - tr.firstMessageTime > 60000
    omega
  simp [checkAndTrackMessage, isUserBlocked, hb, hnlt, hcd, hwin]

theorem expired_block_fresh_window_witness :
    checkAndTrackMessage 3600000 (some ⟨6, 0, 0, some 3600000⟩) =
      ({ isSpam := false, shouldWait := false, waitTime := 0 },
       some ⟨1, 3600000, 3600000, none⟩) :=
  expired_block_fresh_window ⟨6, 0, 0, some 3600000⟩ 3600000 3600000 rfl rfl
    (by decide) (by decide)

/-- C8 counterexample: a tracker whose block stamp passed 70 seconds ago is
no longer blocked, yet `getBlockTimeRemaining` returns `-1`, not 0 — the
operation never clears or clamps an expired stamp. -/
theorem blockRemaining_negative_after_expiry :
    (isUserBlocked 3670000 (some ⟨6, 0, 0, some 3600000⟩)).1 = false ∧
    getBlockTimeRemaining 3670000 (some ⟨6, 0, 0, some 3600000⟩) = -1 := by
  decide

/-- C8 amended: `getBlockTimeRemaining` returns 0 when no tracker exists or
no `blockedUntil` stamp is present; whenever a stamp is present it returns
the ceiling of `(blockedUntil - now) / 60000` (characterised by the two
bracketing inequalities), which is at least 1 while the user is blocked but
may be negative once the stamp has expired without being lazily cleared. -/
theorem getBlockTimeRemaining_spec (now : Int) (t : Option MessageTracker) :
    (t = none → getBlockTimeRemaining now t = 0) ∧
    (∀ tr : MessageTracker, t = some tr → tr.blockedUntil = none →
      getBlockTimeRemaining now t = 0) ∧
    (∀ (tr : MessageTracker) (b : Int), t = some tr → tr.blockedUntil = some b →
      b - now ≤ 60000 * getBlockTimeRemaining now t ∧
      60000 * getBlockTimeRemaining now t < b - now + 60000 ∧
      (now < b → 1 ≤ getBlockTimeRemaining now t)) := by
  refine ⟨fun h => ?_, fun tr h hbn => ?_, fun tr b h hb => ?_⟩
  · subst h; rfl
  · subst h; simp [getBlockTimeRemaining, hbn]
  · subst h
    simp only [getBlockTimeRemaining, hb, jsCeilDiv]
    refine ⟨by omega, by omega, fun hlt => by omega⟩

theorem getBlockTimeRemaining_spec_witness :
    getBlockTimeRemaining 0 none = 0 ∧
    getBlockTimeRemaining 10 (some ⟨1, 0, 0, none⟩) = 0 ∧
    3600000 - 3500000 ≤
      60000 * getBlockTimeRemaining 3500000 (some ⟨6, 0, 0, some 3600000⟩) ∧
    60000 * getBlockTimeRemaining 3500000 (some ⟨6, 0, 0, some 3600000⟩) <
      3600000 - 3500000 + 60000 ∧
    1 ≤ getBlockTimeRemaining 3500000 (some ⟨6, 0, 0, some 3600000⟩) :=
  ⟨(getBlockTimeRemaining_spec 0 none).1 rfl,
   (getBlockTimeRemaining_spec 10 (some ⟨1, 0, 0, none⟩)).2.1 _ rfl rfl,
   ((getBlockTimeRemaining_spec 3500000 (some ⟨6, 0, 0, some 3600000⟩)).2.2
      _ 3600000 rfl rfl).1,
   ((getBlockTimeRemaining_spec 3500000 (some ⟨6, 0, 0, some 3600000⟩)).2.2
      _ 3600000 rfl rfl).2.1,
   ((getBlockTimeRemaining_spec 3500000 (some ⟨6, 0, 0, some 3600000⟩)).2.2
      _ 3600000 rfl rfl).2.2 (by decide)⟩

end AIControl

namespace AIControl

/-- One observable operation on a single user's tracker entry. -/
inductive TrackerStep : Option MessageTracker → Option MessageTracker → Prop where
  | check (now : Int) (t : Option MessageTracker) :
      TrackerStep t (checkAndTrackMessage now t).2
  | blockedQuery (now : Int) (t : Option MessageTracker) :
      TrackerStep t (isUserBlocked now t).2
  | unblock (t : Option MessageTracker) : TrackerStep t (unblockUser t).2
  | clean (now : Int) (t : Option MessageTracker) : TrackerStep t (cleanup now t)

/-- Tracker states reachable from the empty map entry by any sequence of
service operations at arbitrary timestamps. -/
inductive TrackerReachable : Option MessageTracker → Prop where
  | init : TrackerReachable none
  | step {t u : Option MessageTracker} :
      TrackerReachable t → TrackerStep t u → TrackerReachable u

/-- Invariant of the rate limiter: the count never exceeds
`SPAM_THRESHOLD + 1`, and is at most `SPAM_THRESHOLD` while no block stamp
is present. -/
def TrackerInv (t : Option MessageTracker) : Prop :=
  ∀ tr : MessageTracker, t = some tr →
    tr.count ≤ SPAM_THRESHOLD + 1 ∧
      (tr.blockedUntil = none → tr.count ≤ SPAM_THRESHOLD)

lemma isUserBlocked_false_none (now : Int) (t : Option MessageTracker)
    (tr : MessageTracker) (hf : (isUserBlocked now t).1 = false)
    (h2 : (isUserBlocked now t).2 = some tr) : tr.blockedUntil = none := by
  cases t with
  | none => simp [isUserBlocked] at h2
  | some tr0 =>
    cases htr : tr0.blockedUntil with
    | none =>
      simp [isUserBlocked, htr] at h2
      subst h2
      exact htr
    | some b =>
      by_cases hlt : now < b
      · simp [isUserBlocked, htr, hlt] at hf
      · simp [isUserBlocked, htr, hlt] at h2
        subst h2
        rfl

lemma TrackerInv_isUserBlocked (now : Int) (t : Option MessageTracker)
    (h : TrackerInv t) : TrackerInv (isUserBlocked now t).2 := by
  intro tr2 h2
  cases t with
  | none => simp [isUserBlocked] at h2
  | some tr =>
    cases htr : tr.blockedUntil with
    | none =>
      simp [isUserBlocked, htr] at h2
      subst h2
      exact h tr rfl
    | some b =>
      by_cases hlt : now < b
      · simp [isUserBlocked, htr, hlt] at h2
        subst h2
        exact h tr rfl
      · simp [isUserBlocked, htr, hlt] at h2
        subst h2
        refine ⟨by simp, fun _ => by simp⟩

lemma TrackerInv_check (now : Int) (t : Option MessageTracker)
    (h : TrackerInv t) : TrackerInv (checkAndTrackMessage now t).2 := by
  have hinv1 := TrackerInv_isUserBlocked now t h
  cases hb2 : (isUserBlocked now t).1 with
  | true =>
    intro tr2 h2
    simp only [checkAndTrackMessage, hb2, if_true] at h2
    exact hinv1 tr2 h2
  | false =>
    cases hs : (isUserBlocked now t).2 with
    | none =>
      intro tr2 h2
      simp only [checkAndTrackMessage, hb2, hs, Bool.false_eq_true, if_false,
        Option.some.injEq] at h2
      subst h2
      refine ⟨by simp, fun _ => by simp [SPAM_THRESHOLD]⟩
    | some tr1 =>
      have h1 : tr1.blockedUntil = none := isUserBlocked_false_none now t tr1 hb2 hs
      have h1c : tr1.count ≤ SPAM_THRESHOLD := (hinv1 tr1 hs).2 h1
      intro tr2 h2
      by_cases hcd : now - tr1.lastMessageTime < MESSAGE_COOLDOWN
      · simp only [checkAndTrackMessage, hb2, hs, Bool.false_eq_true, if_false,
          if_pos hcd, Option.some.injEq] at h2
        subst h2
        exact hinv1 tr1 hs
      · by_cases hwin : now - tr1.firstMessageTime > SPAM_TIME_WINDOW
        · simp only [checkAndTrackMessage, hb2, hs, Bool.false_eq_true, if_false,
            if_neg hcd, if_pos hwin, Option.some.injEq] at h2
          subst h2
          refine ⟨by simp, fun _ => by simp [SPAM_THRESHOLD]⟩
        · by_cases hth : tr1.count + 1 > SPAM_THRESHOLD
          · simp only [checkAndTrackMessage, hb2, hs, Bool.false_eq_true, if_false,
              if_neg hcd, if_neg hwin, if_pos hth, Option.some.injEq] at h2
            subst h2
            refine ⟨by simp; omega, fun hc => by simp at hc⟩
          · simp only [checkAndTrackMessage, hb2, hs, Bool.false_eq_true, if_false,
              if_neg hcd, if_neg hwin, if_neg hth, Option.some.injEq] at h2
            subst h2
            refine ⟨by simp; omega, fun _ => by simp; omega⟩

lemma TrackerInv_unblockUser (t : Option MessageTracker)
    (h : TrackerInv t) : TrackerInv (unblockUser t).2 := by
  intro tr2 h2
  cases t with
  | none => simp [unblockUser] at h2
  | some tr =>
    cases htr : tr.blockedUntil with
    | none =>
      simp [unblockUser, htr] at h2
      subst h2
      exact h tr rfl
    | some b =>
      simp [unblockUser, htr] at h2
      subst h2
      refine ⟨by simp, fun _ => by simp⟩

lemma TrackerInv_cleanup (now : Int) (t : Option MessageTracker)
    (h : TrackerInv t) : TrackerInv (cleanup now t) := by
  intro tr2 h2
  cases t with
  | none => simp [cleanup] at h2
  | some tr =>
    simp only [cleanup] at h2
    split at h2
    · exact absurd h2 (by simp)
    · simp only [Option.some.injEq] at h2
      subst h2
      exact h tr rfl

lemma reachable_inv {t : Option MessageTracker} (h : TrackerReachable t) :
    TrackerInv t := by
  induction h with
  | init => intro tr h2; simp at h2
  | step hr hs ih =>
    cases hs with
    | check now s => exact TrackerInv_check _ _ ih
    | blockedQuery now s => exact TrackerInv_isUserBlocked _ _ ih
    | unblock s => exact TrackerInv_unblockUser _ ih
    | clean now s => exact TrackerInv_cleanup _ _ ih

/-- C10 -/
theorem reachable_count_bounded (t : Option MessageTracker)
    (h : TrackerReachable t) (tr : MessageTracker) (heq : t = some tr) :
    tr.count ≤ SPAM_THRESHOLD + 1 :=
  (reachable_inv h tr heq).1

theorem reachable_count_bounded_witness :
    ({ count := 1, firstMessageTime := 0, lastMessageTime := 0,
       blockedUntil := none } : MessageTracker).count ≤ SPAM_THRESHOLD + 1 :=
  reachable_count_bounded (checkAndTrackMessage 0 none).2
    (TrackerReachable.step TrackerReachable.init (TrackerStep.check 0 none)) _ rfl

end AIControl
